import Mathlib

/-!
Shallow embedding of `pdf_stitcher.py` (PDF Stitcher v1.0).

The program combines PDF files into one output.  We model:
  * pages abstractly (`Page`): a label page carries the path it was
    generated for; a content page carries its source document and its
    index inside that document;
  * the filesystem's behaviour when a path is opened (`ReadResult`):
    the file parses with `n` pages, parses but is encrypted, or raises
    an exception (missing file / not a valid PDF);
  * the stitcher state (`PDFStitcher`) with its writer page list and the
    `processed_files` / `failed_files` outcome lists;
  * the CLI driver `main` (file resolution, validation, processing loop,
    save, summary printing) as `runMain`.
-/

namespace PDFStitch

/-- Outcome of opening and parsing a path with `PdfReader`:
`ok n` — a valid, non-encrypted PDF with `n` pages;
`encrypted n` — parses but `reader.is_encrypted` is true;
`err` — `open`/`PdfReader` raises (missing file, not a valid PDF). -/
inductive ReadResult where
  | ok (numPages : Nat)
  | encrypted (numPages : Nat)
  | err
deriving DecidableEq, Repr

/-- A page in the output writer: either the label ("source") page
generated for a path, or content page number `idx` of a source document. -/
inductive Page where
  | label (path : String)
  | content (path : String) (idx : Nat)
deriving DecidableEq, Repr

/-- A drawing operation issued on the reportlab canvas. -/
inductive DrawOp where
  | setFont (fontName : String) (size : Nat)
  | drawString (x y : Nat) (text : String)
  | drawLine (x1 y1 x2 y2 : Nat)
deriving DecidableEq, Repr

/-- `os.path.basename`: the part of the path after the last `/`. -/
def basename (p : String) : String :=
  (p.splitOn "/").getLastD ""

/-- `create_source_page(filename)`: the canvas operations of the label
page.  It draws the heading `Source: <basename>` at (72, 720) in
Helvetica-Bold 16 and a separator line. -/
def create_source_page (filename : String) : List DrawOp :=
  [ DrawOp.setFont "Helvetica-Bold" 16,
    DrawOp.drawString 72 720 ("Source: " ++ basename filename),
    DrawOp.drawLine 72 710 540 710 ]

/-- The visible rendered text of a page: the strings drawn on it. -/
def visibleText (ops : List DrawOp) : List String :=
  ops.filterMap fun op =>
    match op with
    | DrawOp.drawString _ _ t => some t
    | _ => none

/-- The stitcher state: `self.writer.pages`, `self.processed_files`,
`self.failed_files`, `self.include_source`. -/
structure PDFStitcher where
  writer : List Page
  processed_files : List String
  failed_files : List String
  include_source : Bool
deriving DecidableEq, Repr

/-- `PDFStitcher.__init__(include_source)`. -/
def initStitcher (include_source : Bool) : PDFStitcher :=
  { writer := [], processed_files := [], failed_files := [],
    include_source := include_source }

/-- `PDFStitcher.add_pdf(pdf_path)`.  The filesystem is the map
`fs : String → ReadResult` giving the behaviour of opening each path.
Following the source: inside the `try` block the label page is created
and appended first (when `include_source`); only then is the file
opened.  An encrypted file is appended to `failed_files` and the method
returns `False`; a raised exception (`ReadResult.err`, occurring at the
`open` call, hence after the label page was appended) lands in the
`except` handler which appends to `failed_files` and returns `False`;
otherwise all content pages are appended in order, the path is appended
to `processed_files`, and the method returns `True`. -/
def add_pdf (fs : String → ReadResult) (s : PDFStitcher) (pdf_path : String) :
    PDFStitcher × Bool :=
  let s1 := if s.include_source
    then { s with writer := s.writer ++ [Page.label pdf_path] }
    else s
  match fs pdf_path with
  | ReadResult.encrypted _ =>
      ({ s1 with failed_files := s1.failed_files ++ [pdf_path] }, false)
  | ReadResult.err =>
      ({ s1 with failed_files := s1.failed_files ++ [pdf_path] }, false)
  | ReadResult.ok n =>
      ({ s1 with
          writer := s1.writer ++ (List.range n).map (Page.content pdf_path),
          processed_files := s1.processed_files ++ [pdf_path] }, true)

/-- `PDFStitcher.save_stitched_pdf(output_path)`: writes the
accumulated pages out.  Whether the serialization succeeds is an
environment fact, `writeOk`; the method returns that success flag and
touches none of the stitcher's fields (both the `try` and the `except`
branch of the source leave `self` untouched). -/
def save_stitched_pdf (writeOk : Bool) (s : PDFStitcher) : PDFStitcher × Bool :=
  if writeOk then (s, true) else (s, false)

/-- `PDFStitcher.get_stats()`. -/
structure Stats where
  processed : Nat
  failed : Nat
  total_pages : Nat
deriving DecidableEq, Repr

def get_stats (s : PDFStitcher) : Stats :=
  { processed := s.processed_files.length,
    failed := s.failed_files.length,
    total_pages := s.writer.length }

/-- The processing loop of `main`: `for pdf_file in bar: stitcher.add_pdf(pdf_file)`
(the boolean result is discarded by the loop). -/
def processAll (fs : String → ReadResult) (s : PDFStitcher) :
    List String → PDFStitcher
  | [] => s
  | p :: ps => processAll fs (add_pdf fs s p).1 ps

/-- The pages one call of `add_pdf` appends for path `p` under labeling
flag `b`: the optional label page followed by the content pages (none
when the file is encrypted or raises). -/
def docPages (fs : String → ReadResult) (b : Bool) (p : String) : List Page :=
  (if b then [Page.label p] else []) ++
  (match fs p with
   | ReadResult.ok n => (List.range n).map (Page.content p)
   | _ => [])

/-- The CLI options of `main`: `--input-dir`, `--files` (click collects
the repeated option into a tuple, here a list in the order supplied),
`--pattern`, `--no_source`.  `--output` and `--verbose` only affect
where the file is written and what is echoed, not the claims. -/
structure CLIArgs where
  input_dir : Option String
  files : List String
  pattern : String
  no_source : Bool
deriving DecidableEq, Repr

/-- The environment `main` runs against: `os.path.isdir`, raw
`glob.glob` matches (in whatever order the filesystem yields them),
`os.path.isfile`, the behaviour of opening each path, and whether the
final serialization succeeds. -/
structure FSModel where
  isdir : String → Bool
  globMatches : String → String → List String
  isfile : String → Bool
  read : String → ReadResult
  writeOk : Bool

/-- `find_pdf_files(directory, pattern)`: `sorted(glob.glob(os.path.join
(directory, pattern)))` — the glob matches sorted lexicographically
ascending (Python's `sorted` on strings compares code points, as does
the `String` order used here). -/
def find_pdf_files (fs : FSModel) (directory pattern : String) : List String :=
  List.insertionSort (fun a b => a ≤ b) (fs.globMatches directory pattern)

/-- The outcome of the file-resolution phase of `main` (lines 174-192):
either a resolved list, or the fatal "Directory does not exist" error. -/
inductive Resolution where
  | ok (fls : List String)
  | dirMissing
deriving DecidableEq, Repr

/-- File resolution in `main`: `if files: ... elif input_dir: ... else:`
(current directory).  Explicit files take precedence and keep caller
order; directory mode checks `isdir` and sorts the glob matches; with
neither option the current working directory is globbed. -/
def resolveFiles (fs : FSModel) (cwd : String) (args : CLIArgs) : Resolution :=
  if args.files.isEmpty then
    match args.input_dir with
    | some d =>
        if fs.isdir d then Resolution.ok (find_pdf_files fs d args.pattern)
        else Resolution.dirMissing
    | none => Resolution.ok (find_pdf_files fs cwd args.pattern)
  else Resolution.ok args.files

/-- Observable outcome of one `main` invocation: the process exit code
(0 success, 1 any `sys.exit(1)`), which input paths reached `add_pdf`
(`opened`), the final writer page list (empty when processing never
started), and the statistics summary if one was printed (`main` prints
it only in the branch where `save_stitched_pdf` returned `True`). -/
structure MainOutcome where
  exitCode : Nat
  opened : List String
  pages : List Page
  statsPrinted : Option Stats
deriving DecidableEq, Repr

/-- `main` (lines 174-234): resolve the file list; exit 1 if the input
directory is missing, the list is empty, or some listed file fails the
`os.path.isfile` check — all before a `PDFStitcher` is created; then
process every file, save, and print the summary only on a successful
save (a failed save exits 1 without computing stats). -/
def runMain (fs : FSModel) (cwd : String) (args : CLIArgs) : MainOutcome :=
  match resolveFiles fs cwd args with
  | Resolution.dirMissing =>
      { exitCode := 1, opened := [], pages := [], statsPrinted := none }
  | Resolution.ok pdfs =>
      if pdfs.isEmpty then
        { exitCode := 1, opened := [], pages := [], statsPrinted := none }
      else if pdfs.any (fun f => !(fs.isfile f)) then
        { exitCode := 1, opened := [], pages := [], statsPrinted := none }
      else
        let st := processAll fs.read (initStitcher (!args.no_source)) pdfs
        let saved := save_stitched_pdf fs.writeOk st
        if saved.2 then
          { exitCode := 0, opened := pdfs, pages := saved.1.writer,
            statsPrinted := some (get_stats saved.1) }
        else
          { exitCode := 1, opened := pdfs, pages := saved.1.writer,
            statsPrinted := none }

/-- Whether opening a path succeeds (valid, non-encrypted PDF). -/
def readOk : ReadResult → Bool
  | ReadResult.ok _ => true
  | _ => false

lemma add_pdf_include_source (fs : String → ReadResult) (s : PDFStitcher)
    (p : String) : ((add_pdf fs s p).1).include_source = s.include_source := by
  unfold add_pdf
  cases h : fs p <;> cases hb : s.include_source <;> simp [h, hb]

lemma add_pdf_writer (fs : String → ReadResult) (s : PDFStitcher) (p : String) :
    ((add_pdf fs s p).1).writer = s.writer ++ docPages fs s.include_source p := by
  unfold add_pdf docPages
  cases h : fs p <;> cases hb : s.include_source <;> simp [h, hb]

lemma add_pdf_processed (fs : String → ReadResult) (s : PDFStitcher)
    (p : String) : ((add_pdf fs s p).1).processed_files
      = s.processed_files ++ (if readOk (fs p) then [p] else []) := by
  unfold add_pdf readOk
  cases h : fs p <;> cases hb : s.include_source <;> simp [h, hb]

lemma add_pdf_failed (fs : String → ReadResult) (s : PDFStitcher) (p : String) :
    ((add_pdf fs s p).1).failed_files
      = s.failed_files ++ (if readOk (fs p) then [] else [p]) := by
  unfold add_pdf readOk
  cases h : fs p <;> cases hb : s.include_source <;> simp [h, hb]

lemma processAll_include_source (fs : String → ReadResult) :
    ∀ (paths : List String) (s : PDFStitcher),
      (processAll fs s paths).include_source = s.include_source := by
  intro paths
  induction paths with
  | nil => intro s; rfl
  | cons p ps ih =>
      intro s
      simp only [processAll]
      rw [ih, add_pdf_include_source]

lemma processAll_writer (fs : String → ReadResult) :
    ∀ (paths : List String) (s : PDFStitcher),
      (processAll fs s paths).writer
        = s.writer ++ paths.flatMap (docPages fs s.include_source) := by
  intro paths
  induction paths with
  | nil => intro s; simp [processAll]
  | cons p ps ih =>
      intro s
      simp only [processAll, List.flatMap_cons]
      rw [ih, add_pdf_writer, add_pdf_include_source, List.append_assoc]

lemma processAll_processed (fs : String → ReadResult) :
    ∀ (paths : List String) (s : PDFStitcher),
      (processAll fs s paths).processed_files
        = s.processed_files ++ paths.filter (fun p => readOk (fs p)) := by
  intro paths
  induction paths with
  | nil => intro s; simp [processAll]
  | cons p ps ih =>
      intro s
      simp only [processAll, List.filter_cons]
      rw [ih, add_pdf_processed]
      cases h : readOk (fs p) <;> simp [h]

lemma processAll_failed (fs : String → ReadResult) :
    ∀ (paths : List String) (s : PDFStitcher),
      (processAll fs s paths).failed_files
        = s.failed_files ++ paths.filter (fun p => !readOk (fs p)) := by
  intro paths
  induction paths with
  | nil => intro s; simp [processAll]
  | cons p ps ih =>
      intro s
      simp only [processAll, List.filter_cons]
      rw [ih, add_pdf_failed]
      cases h : readOk (fs p) <;> simp [h]

lemma flatMap_docPages_length (fs : String → ReadResult) (pages : String → Nat)
    (b : Bool) : ∀ (paths : List String),
      (∀ p ∈ paths, fs p = ReadResult.ok (pages p)) →
      (paths.flatMap (docPages fs b)).length
        = (paths.map pages).sum + (if b then paths.length else 0) := by
  intro paths
  induction paths with
  | nil => intro _; simp
  | cons p ps ih =>
      intro h
      have hp : fs p = ReadResult.ok (pages p) := h p (List.mem_cons_self p ps)
      have hps : ∀ q ∈ ps, fs q = ReadResult.ok (pages q) := by
        intro q hq; exact h q (List.mem_cons_of_mem p hq)
      simp only [List.flatMap_cons, List.length_append, ih hps, List.map_cons,
        List.sum_cons, docPages, hp]
      cases b
      · simp
      · simp
        omega

/-- C3: the output page sequence is exactly the concatenation, in
resolved input order, of each document's block: the optional label page
(immediately) followed by that document's content pages in their
original internal order (`List.range n` indexes them `0, 1, …`). -/
theorem processAll_page_order (fs : String → ReadResult) (b : Bool)
    (paths : List String) :
    (processAll fs (initStitcher b) paths).writer
      = paths.flatMap (docPages fs b) := by
  rw [processAll_writer]
  rfl

/-- C4: every `add_pdf` call appends the path to exactly one of
`processed_files` / `failed_files`, exactly once, leaving the other
list unchanged — never both, never neither. -/
theorem add_pdf_exactly_one_outcome (fs : String → ReadResult)
    (s : PDFStitcher) (p : String) :
    (((add_pdf fs s p).1).processed_files = s.processed_files ++ [p] ∧
      ((add_pdf fs s p).1).failed_files = s.failed_files)
    ∨ (((add_pdf fs s p).1).processed_files = s.processed_files ∧
      ((add_pdf fs s p).1).failed_files = s.failed_files ++ [p]) := by
  rw [add_pdf_processed, add_pdf_failed]
  cases h : readOk (fs p) <;> simp [h]

/-- C2: when every input is a valid, non-encrypted PDF, the reported
`total_pages` equals the sum of the inputs' page counts plus one label
page per input when labeling is enabled, and exactly the sum when it is
disabled; moreover every path is processed and none fails. -/
theorem all_ok_total_pages (fs : String → ReadResult) (pages : String → Nat)
    (paths : List String) (b : Bool)
    (h : ∀ p ∈ paths, fs p = ReadResult.ok (pages p)) :
    (get_stats (processAll fs (initStitcher b) paths)).total_pages
      = (paths.map pages).sum + (if b then paths.length else 0) ∧
    (processAll fs (initStitcher b) paths).processed_files = paths ∧
    (processAll fs (initStitcher b) paths).failed_files = [] := by
  refine ⟨?_, ?_, ?_⟩
  · show (processAll fs (initStitcher b) paths).writer.length = _
    rw [processAll_writer]
    show ([] ++ paths.flatMap (docPages fs b)).length = _
    rw [List.nil_append]
    exact flatMap_docPages_length fs pages b paths h
  · rw [processAll_processed]
    show [] ++ _ = _
    rw [List.nil_append]
    apply List.filter_eq_self.mpr
    intro p hp
    rw [h p hp]
    rfl
  · rw [processAll_failed]
    show [] ++ _ = _
    rw [List.nil_append]
    simp only [List.filter_eq_nil_iff]
    intro p hp
    rw [h p hp]
    simp [readOk]

/-- The constant filesystem in which every path is a valid 2-page PDF. -/
def fsAllTwo : String → ReadResult := fun _ => ReadResult.ok 2

theorem all_ok_total_pages_witness :
    (get_stats (processAll fsAllTwo (initStitcher true)
      ["x.pdf", "y.pdf"])).total_pages = 6 ∧
    (processAll fsAllTwo (initStitcher true)
      ["x.pdf", "y.pdf"]).processed_files = ["x.pdf", "y.pdf"] := by
  have h := all_ok_total_pages fsAllTwo (fun _ => 2) ["x.pdf", "y.pdf"] true
    (fun p _ => rfl)
  exact ⟨h.1, h.2.1⟩

/-- C8: the Label Page Generator is a pure, deterministic function of
the filename: two calls with the same filename produce identical canvas
operations, hence identical visible text, and the visible text is the
single heading `Source: <basename>`. -/
theorem create_source_page_deterministic (f : String) :
    create_source_page f = create_source_page f ∧
    visibleText (create_source_page f)
      = visibleText (create_source_page f) ∧
    visibleText (create_source_page f) = ["Source: " ++ basename f] :=
  ⟨rfl, rfl, rfl⟩

/-- C9: with labeling enabled, when opening or parsing the file raises
(missing file, not a valid PDF), the writer still grows by exactly one
page — the label page, appended before the `open` call — while the path
is recorded as failed and `add_pdf` returns `False`. -/
theorem add_pdf_error_still_adds_label (fs : String → ReadResult)
    (s : PDFStitcher) (p : String) (h1 : s.include_source = true)
    (h2 : fs p = ReadResult.err) :
    ((add_pdf fs s p).1).writer = s.writer ++ [Page.label p] ∧
    ((add_pdf fs s p).1).writer.length = s.writer.length + 1 ∧
    ((add_pdf fs s p).1).failed_files = s.failed_files ++ [p] ∧
    (add_pdf fs s p).2 = false := by
  unfold add_pdf
  simp [h1, h2]

/-- The filesystem in which every open raises an exception. -/
def fsErrOnly : String → ReadResult := fun _ => ReadResult.err

theorem add_pdf_error_still_adds_label_witness :
    ((add_pdf fsErrOnly (initStitcher true) "missing.pdf").1).writer
      = [Page.label "missing.pdf"] ∧
    ((add_pdf fsErrOnly (initStitcher true) "missing.pdf").1).failed_files
      = ["missing.pdf"] := by
  have h := add_pdf_error_still_adds_label fsErrOnly (initStitcher true)
    "missing.pdf" rfl rfl
  exact ⟨h.1, h.2.2.1⟩

/-- C10: `save_stitched_pdf` never mutates the stitcher state — the
processed list, the failed list and the writer's page sequence are
unchanged whether serialization succeeds or fails — and failure is
reported only through the returned boolean. -/
theorem save_stitched_pdf_frame (w : Bool) (s : PDFStitcher) :
    ((save_stitched_pdf w s).1).processed_files = s.processed_files ∧
    ((save_stitched_pdf w s).1).failed_files = s.failed_files ∧
    ((save_stitched_pdf w s).1).writer = s.writer ∧
    (save_stitched_pdf w s).2 = w := by
  cases w <;> simp [save_stitched_pdf]

/-- The C1 scenario filesystem: `a.pdf` is a valid 2-page PDF and
`b.pdf` parses but is encrypted (3 pages). -/
def fsC1 : String → ReadResult := fun p =>
  if p = "a.pdf" then ReadResult.ok 2
  else if p = "b.pdf" then ReadResult.encrypted 3
  else ReadResult.err

/-- The stitcher state after the C1 scenario run with labeling enabled. -/
def stC1 : PDFStitcher := processAll fsC1 (initStitcher true) ["a.pdf", "b.pdf"]

/-- C1 counterexample: in the claimed scenario the output has 4 pages,
not 3 — `add_pdf` appends the label page before the encryption check,
so the encrypted `b.pdf` still contributes its label page. -/
theorem encrypted_scenario_counterexample :
    (get_stats stC1).total_pages = 4 ∧ (get_stats stC1).total_pages ≠ 3 ∧
    stC1.processed_files = ["a.pdf"] ∧ stC1.failed_files = ["b.pdf"] ∧
    stC1.writer = [Page.label "a.pdf", Page.content "a.pdf" 0,
      Page.content "a.pdf" 1, Page.label "b.pdf"] :=
  ⟨rfl, by decide, rfl, rfl, rfl⟩

/-- C1 (amended): an encrypted input always lands in `failed` and
contributes zero content pages, but when labeling is enabled its label
page — appended before the encryption check — remains in the output,
so the document contributes exactly one page; in the scenario the
output has 4 pages (label + 2 content for `a.pdf`, label for `b.pdf`),
`processed = ["a.pdf"]`, `failed = ["b.pdf"]`, reported total 4. -/
theorem add_pdf_encrypted_spec (fs : String → ReadResult) (s : PDFStitcher)
    (p : String) (n : Nat) (h : fs p = ReadResult.encrypted n) :
    (((add_pdf fs s p).1).writer
        = s.writer ++ (if s.include_source then [Page.label p] else []) ∧
      ((add_pdf fs s p).1).processed_files = s.processed_files ∧
      ((add_pdf fs s p).1).failed_files = s.failed_files ++ [p] ∧
      (add_pdf fs s p).2 = false) ∧
    ((get_stats stC1).total_pages = 4 ∧ stC1.processed_files = ["a.pdf"] ∧
      stC1.failed_files = ["b.pdf"]) := by
  constructor
  · unfold add_pdf
    cases hb : s.include_source <;> simp [h, hb]
  · exact ⟨rfl, rfl, rfl⟩

theorem add_pdf_encrypted_spec_witness :
    ((add_pdf fsC1 (initStitcher true) "b.pdf").1).failed_files = ["b.pdf"] ∧
    ((add_pdf fsC1 (initStitcher true) "b.pdf").1).writer
      = [Page.label "b.pdf"] := by
  have h := add_pdf_encrypted_spec fsC1 (initStitcher true) "b.pdf" 3 rfl
  exact ⟨h.1.2.2.1, h.1.1⟩

/-- C5 environment: a single valid one-page explicit file; the final
serialization fails. -/
def fsWriteFail : FSModel :=
  { isdir := fun _ => true, globMatches := fun _ _ => [],
    isfile := fun _ => true, read := fun _ => ReadResult.ok 1,
    writeOk := false }

/-- The same environment with a succeeding write. -/
def fsWriteOkay : FSModel := { fsWriteFail with writeOk := true }

def argsSingle : CLIArgs :=
  { input_dir := none, files := ["a.pdf"], pattern := "*.pdf",
    no_source := false }

/-- C5 counterexample: a run that reaches the write stage and whose
write fails exits 1 without computing or printing the statistics
summary — `main` calls `get_stats` only in the successful-save
branch. -/
theorem write_failure_no_stats_counterexample :
    (runMain fsWriteFail "/cwd" argsSingle).exitCode = 1 ∧
    (runMain fsWriteFail "/cwd" argsSingle).statsPrinted = none ∧
    (runMain fsWriteFail "/cwd" argsSingle).opened = ["a.pdf"] :=
  ⟨rfl, rfl, rfl⟩

/-- C5 (amended): for every run that reaches the write stage, the
summary is printed exactly when the write succeeds — on success the
process exits 0 and prints the stats of the accumulated state; on write
failure it exits 1 and no summary is computed or printed. -/
theorem summary_iff_write_ok (fs : FSModel) (cwd : String) (args : CLIArgs)
    (pdfs : List String) (h1 : resolveFiles fs cwd args = Resolution.ok pdfs)
    (h2 : pdfs.isEmpty = false)
    (h3 : pdfs.any (fun f => !(fs.isfile f)) = false) :
    (fs.writeOk = true →
      runMain fs cwd args =
        { exitCode := 0, opened := pdfs,
          pages := (processAll fs.read (initStitcher (!args.no_source)) pdfs).writer,
          statsPrinted :=
            some (get_stats (processAll fs.read (initStitcher (!args.no_source)) pdfs)) }) ∧
    (fs.writeOk = false →
      runMain fs cwd args =
        { exitCode := 1, opened := pdfs,
          pages := (processAll fs.read (initStitcher (!args.no_source)) pdfs).writer,
          statsPrinted := none }) := by
  unfold runMain
  rw [h1]
  constructor
  · intro hw
    simp [h2, h3, save_stitched_pdf, hw]
  · intro hw
    simp [h2, h3, save_stitched_pdf, hw]

theorem summary_iff_write_ok_witness :
    runMain fsWriteOkay "/cwd" argsSingle =
      { exitCode := 0, opened := ["a.pdf"],
        pages := (processAll fsWriteOkay.read (initStitcher true) ["a.pdf"]).writer,
        statsPrinted :=
          some (get_stats (processAll fsWriteOkay.read (initStitcher true) ["a.pdf"])) } := by
  have h := summary_iff_write_ok fsWriteOkay "/cwd" argsSingle ["a.pdf"] rfl rfl rfl
  exact h.1 rfl

/-- C7 counterexample environment: every directory is missing, every
file exists and is a valid one-page PDF, the write succeeds. -/
def fsNoDir : FSModel :=
  { isdir := fun _ => false, globMatches := fun _ _ => [],
    isfile := fun _ => true, read := fun _ => ReadResult.ok 1,
    writeOk := true }

def argsFilesAndDir : CLIArgs :=
  { input_dir := some "missing_dir", files := ["a.pdf"], pattern := "*.pdf",
    no_source := false }

/-- C7 counterexample: an invocation naming a nonexistent input
directory while also supplying explicit files proceeds and exits 0 —
the directory existence check is skipped when explicit files are
given, so such an invocation does not report a configuration error. -/
theorem missing_dir_ignored_counterexample :
    fsNoDir.isdir "missing_dir" = false ∧
    argsFilesAndDir.input_dir = some "missing_dir" ∧
    (runMain fsNoDir "/cwd" argsFilesAndDir).exitCode = 0 :=
  ⟨rfl, rfl, rfl⟩

/-- C7 (amended): an empty resolved file list always causes exit 1
before any file is opened or any page appended; a nonexistent input
directory causes the same fatal exit (again before any open) only in
directory mode, i.e. when no explicit files are supplied. -/
theorem config_error_spec (fs : FSModel) (cwd : String) (args : CLIArgs)
    (d : String) :
    (resolveFiles fs cwd args = Resolution.ok [] →
      runMain fs cwd args =
        { exitCode := 1, opened := [], pages := [], statsPrinted := none }) ∧
    (args.files = [] → args.input_dir = some d → fs.isdir d = false →
      runMain fs cwd args =
        { exitCode := 1, opened := [], pages := [], statsPrinted := none }) := by
  constructor
  · intro h
    unfold runMain
    rw [h]
    rfl
  · intro hf hd hdir
    unfold runMain resolveFiles
    simp [hf, hd, hdir]

/-- An environment whose glob finds nothing. -/
def fsEmptyGlob : FSModel :=
  { isdir := fun _ => true, globMatches := fun _ _ => [],
    isfile := fun _ => true, read := fun _ => ReadResult.ok 1,
    writeOk := true }

def argsDirOnly : CLIArgs :=
  { input_dir := some "docs", files := [], pattern := "*.pdf",
    no_source := false }

theorem config_error_spec_witness :
    runMain fsEmptyGlob "/cwd" argsDirOnly =
      { exitCode := 1, opened := [], pages := [], statsPrinted := none } ∧
    runMain fsNoDir "/cwd" argsDirOnly =
      { exitCode := 1, opened := [], pages := [], statsPrinted := none } := by
  constructor
  · exact (config_error_spec fsEmptyGlob "/cwd" argsDirOnly "docs").1 rfl
  · exact (config_error_spec fsNoDir "/cwd" argsDirOnly "docs").2 rfl rfl rfl

/-- Glob environment for the C6 sorting example: the filesystem yields
`chapter_2.pdf` before `chapter_1.pdf`. -/
def fsChaptersRev : FSModel :=
  { isdir := fun _ => true,
    globMatches := fun _ _ => ["chapter_2.pdf", "chapter_1.pdf"],
    isfile := fun _ => true, read := fun _ => ReadResult.ok 1,
    writeOk := true }

/-- C6: explicit files take precedence entirely, in caller order with
no sorting and the directory mode ignored; in directory mode the
resolved list is the glob matches sorted lexicographically ascending —
a sorted permutation of the matches — and in particular the matches
`[chapter_2.pdf, chapter_1.pdf]` resolve to
`[chapter_1.pdf, chapter_2.pdf]`. -/
theorem resolution_order (fs : FSModel) (cwd d : String) (args : CLIArgs) :
    (args.files ≠ [] → resolveFiles fs cwd args = Resolution.ok args.files) ∧
    (args.files = [] → args.input_dir = some d → fs.isdir d = true →
      resolveFiles fs cwd args
          = Resolution.ok (find_pdf_files fs d args.pattern) ∧
      List.Sorted (fun a b : String => a ≤ b)
        (find_pdf_files fs d args.pattern) ∧
      (find_pdf_files fs d args.pattern).Perm (fs.globMatches d args.pattern)) ∧
    find_pdf_files fsChaptersRev d args.pattern
      = ["chapter_1.pdf", "chapter_2.pdf"] := by
  refine ⟨?_, ?_, ?_⟩
  · intro h
    unfold resolveFiles
    simp [h]
  · intro hf hd hdir
    refine ⟨?_, ?_, ?_⟩
    · unfold resolveFiles
      simp [hf, hd, hdir]
    · exact List.sorted_insertionSort _ _
    · exact List.perm_insertionSort _ _
  · show List.insertionSort _ ["chapter_2.pdf", "chapter_1.pdf"] = _
    simp [List.insertionSort, List.orderedInsert]
    decide

def argsExplicitPair : CLIArgs :=
  { input_dir := some "docs", files := ["z.pdf", "a.pdf"], pattern := "*.pdf",
    no_source := false }

theorem resolution_order_witness :
    resolveFiles fsChaptersRev "/cwd" argsExplicitPair
      = Resolution.ok ["z.pdf", "a.pdf"] ∧
    resolveFiles fsChaptersRev "/cwd" argsDirOnly
      = Resolution.ok ["chapter_1.pdf", "chapter_2.pdf"] := by
  have h1 := (resolution_order fsChaptersRev "/cwd" "docs" argsExplicitPair).1
    (by simp [argsExplicitPair])
  have h2 := (resolution_order fsChaptersRev "/cwd" "docs" argsDirOnly).2.1
    rfl rfl rfl
  have h3 := (resolution_order fsChaptersRev "/cwd" "docs" argsDirOnly).2.2
  exact ⟨h1, h2.1.trans (congrArg Resolution.ok h3)⟩

end PDFStitch
